import Mathlib

/-!
Verification of the tentacle-mqtt Sparkplug B bridge (src/unnamed/part_000 and
src/types/mappings.ts) against its natural-language specification.

The TypeScript source is shallowly embedded: JS numbers are modelled as
rationals (ℚ, exact arithmetic; float rounding and NaN propagation are kept
only where the code's control flow depends on `typeof`), wall-clock instants
(`Date.now()`) are explicit `now : ℚ` parameters, the module-level mutable
maps (`rbeState`, `knownTemplates`, the synapse device's `metrics`, the
`variables` map) are association lists threaded through each operation, and
`setTimeout`/`clearTimeout` are modelled by a list of live (handle, fireTime)
pairs so that "at most one outstanding timer" is a provable property rather
than a modelling assumption.
-/

set_option maxHeartbeats 1000000

namespace TentacleMqtt

/-- JS primitive values (number / boolean / string) as they occur in NATS
payloads and Sparkplug metric values. JS numbers are idealised as ℚ. -/
inductive Prim where
  | num (q : ℚ)
  | bool (b : Bool)
  | str (s : String)
deriving DecidableEq, Repr

/-- Value of one member inside a Sparkplug B template metric: a primitive or
JS `null`; `nanV` models a JS NaN produced by a failed numeric conversion. -/
inductive MVal where
  | prim (p : Prim)
  | nullV
  | nanV
deriving DecidableEq, Repr

/-- One member entry of a Sparkplug B template value (`{ name, type, value }`). -/
structure MemberMetric where
  name : String
  type : String
  value : MVal
deriving DecidableEq, Repr

/-- Payload of a Sparkplug B template metric, as built by
`createTemplateDefinitionMetric` / `createTemplateInstanceMetric`. -/
structure TemplateValue where
  isDefinition : Bool
  templateRef : String
  version : String
  metrics : List MemberMetric
deriving DecidableEq, Repr

/-- A JS runtime value as the bridge sees it: a primitive, `null`, NaN, a
plain record (UDT value: member name to primitive), or a template object. -/
inductive JVal where
  | prim (p : Prim)
  | nullV
  | nanV
  | recV (fields : List (String × Prim))
  | tmplV (t : TemplateValue)
deriving DecidableEq, Repr

/-- Deadband (RBE) policy carried on NATS messages:
`{ value: number; maxTime?: number }` (maxTime in milliseconds). -/
structure Deadband where
  value : ℚ
  maxTime : Option ℚ
deriving DecidableEq, Repr

/-- Entry of the module-level `rbeState` map. -/
structure RBEState where
  lastPublishedValue : JVal
  lastPublishedTime : ℚ
deriving DecidableEq, Repr

/-- Lookup in an association list (models `Map.get` keyed by string). -/
def assocGet (k : String) : List (String × α) → Option α
  | [] => none
  | (k2, v) :: rest => if k = k2 then some v else assocGet k rest

/-- Insert-or-overwrite in an association list, preserving the position of an
existing key (models JS `Map.set` insertion-order semantics). -/
def assocSet (k : String) (v : α) : List (String × α) → List (String × α)
  | [] => [(k, v)]
  | (k2, v2) :: rest =>
      if k = k2 then (k, v) :: rest else (k2, v2) :: assocSet k v rest

/-- Remove a key from an association list (models `delete obj[key]`). -/
def assocDelete (k : String) : List (String × α) → List (String × α)
  | [] => []
  | (k2, v2) :: rest =>
      if k = k2 then assocDelete k rest else (k2, v2) :: assocDelete k rest

-- =============================================================================
-- RBE (Report By Exception) — embedding of shouldPublish / recordPublish
-- (src/unnamed/part_000 lines 60-92)
-- =============================================================================

/-- Truthiness-guarded staleness test from `shouldPublish`:
`deadband.maxTime && elapsed >= deadband.maxTime`. A `maxTime` of 0 is falsy
in JS, so it can never trigger the override. -/
def maxTimeExceeded (maxTime : Option ℚ) (elapsed : ℚ) : Bool :=
  match maxTime with
  | some m => decide (m ≠ 0) && decide (elapsed ≥ m)
  | none => false

/-- The `typeof v === "number"` test (NaN also has JS type "number"). -/
def isJsNumber : JVal → Bool
  | .prim (.num _) => true
  | .nanV => true
  | _ => false

/-- JS strict inequality `a !== b` for the values the filter compares:
primitives compare by value, `null === null`, `NaN !== NaN`, and objects
compare by reference — every parsed record/template is a fresh object, so
two object operands are never identical. -/
def jsStrictNeq : JVal → JVal → Bool
  | .prim a, .prim b => decide (a ≠ b)
  | .nullV, .nullV => false
  | _, _ => true

/-- Embedding of `shouldPublish(variableId, value, deadband?, disableRBE?)`
(part_000 lines 60-85). `Date.now()` is the explicit `now` parameter; the
module-level `rbeState` map is the explicit `rbe` argument. The function only
reads the filter state — it is pure, so re-evaluating it without an
intervening `recordPublish` trivially yields the same answer. -/
def shouldPublish (rbe : List (String × RBEState)) (now : ℚ) (variableId : String)
    (value : JVal) (deadband : Option Deadband) (disableRBE : Option Bool) : Bool :=
  match deadband with
  | none => true
  | some db =>
      if disableRBE = some true then true
      else
        match assocGet variableId rbe with
        | none => true
        | some state =>
            let elapsed := now - state.lastPublishedTime
            if maxTimeExceeded db.maxTime elapsed then true
            else if isJsNumber value && isJsNumber state.lastPublishedValue then
              match value, state.lastPublishedValue with
              | .prim (.num v), .prim (.num last) => decide (|v - last| > db.value)
              | _, _ => false
            else jsStrictNeq value state.lastPublishedValue

/-- Embedding of `recordPublish(variableId, value)` (part_000 lines 87-92):
unconditionally overwrite the `rbeState` entry with the value and `Date.now()`. -/
def recordPublish (rbe : List (String × RBEState)) (now : ℚ)
    (variableId : String) (value : JVal) : List (String × RBEState) :=
  assocSet variableId ⟨value, now⟩ rbe

-- =============================================================================
-- Type Mapper — embedding of src/types/mappings.ts
-- =============================================================================

/-- Helper for `splitOnChar`: structural recursion over the character list,
accumulating the current segment in reverse. -/
def splitCharAux (c : Char) : List Char → List Char → List String
  | [], acc => [⟨acc.reverse⟩]
  | x :: rest, acc =>
      if x = c then ⟨acc.reverse⟩ :: splitCharAux c rest []
      else splitCharAux c rest (x :: acc)

/-- The JS `split(sep)` for a single-character separator (as in
`subject.split(".")` and `metricName.split("/")`): `"" ↦ [""]`, empty
segments preserved. Structural recursion, so concrete instances evaluate
inside the kernel (unlike `String.splitOn`). -/
def splitOnChar (c : Char) (s : String) : List String :=
  splitCharAux c s.data []

/-- The JS `toLowerCase()` builtin, modelled as per-character ASCII lowering
(structural recursion, unlike `String.toLower`, so concrete instances
evaluate inside the kernel). -/
def jsToLower (s : String) : String := ⟨s.data.map Char.toLower⟩

/-- Rendering of a JS number to a string (used by `String(value)` and
`JSON.stringify`). JS renders floats in decimal; this model uses an injective
rendering of ℚ, which is adequate because the bridge only ever compares such
strings for equality (never parses them back in a claim-relevant path). -/
def numToString (q : ℚ) : String :=
  if q.den = 1 then toString q.num else toString q.num ++ "/" ++ toString q.den

/-- The JS `String(value)` conversion for the values this bridge handles. -/
def jsString : JVal → String
  | .prim (.num q) => numToString q
  | .prim (.bool b) => if b then "true" else "false"
  | .prim (.str s) => s
  | .nullV => "null"
  | .nanV => "NaN"
  | .recV _ => "[object Object]"
  | .tmplV _ => "[object Object]"

/-- The JS `parseFloat` builtin, modelled for full integer strings only
(result NaN otherwise). JS `parseFloat` also accepts decimal points,
exponents and numeric prefixes; no claim exercises those shapes, and every
claim-relevant call passes `parseFloat` an already-numeric value upstream. -/
def parseFloatJS (s : String) : JVal :=
  match s.toInt? with
  | some i => .prim (.num i)
  | none => .nanV

/-- JSON rendering of a primitive (`JSON.stringify` on a leaf). -/
def jsonStringifyPrim : Prim → String
  | .num q => numToString q
  | .bool b => if b then "true" else "false"
  | .str s => "\"" ++ s ++ "\""

/-- JSON rendering of a flat record, in field order
(models `JSON.stringify(udtValue)`). -/
def jsonStringifyRecord (fields : List (String × Prim)) : String :=
  "\x7b" ++
    String.intercalate ","
      (fields.map fun p => "\"" ++ p.1 ++ "\":" ++ jsonStringifyPrim p.2) ++
    "\x7d"

/-- JSON rendering of a template member value (`JSON.stringify(NaN)` is
"null"). -/
def jsonStringifyMVal : MVal → String
  | .prim p => jsonStringifyPrim p
  | .nullV => "null"
  | .nanV => "null"

/-- JSON rendering of any bridge value (`JSON.stringify`). -/
def jsonStringify : JVal → String
  | .prim p => jsonStringifyPrim p
  | .nullV => "null"
  | .nanV => "null"
  | .recV f => jsonStringifyRecord f
  | .tmplV t =>
      "\x7b\"isDefinition\":" ++ (if t.isDefinition then "true" else "false") ++
      ",\"templateRef\":\"" ++ t.templateRef ++ "\",\"version\":\"" ++ t.version ++
      "\",\"metrics\":[" ++
      String.intercalate ","
        (t.metrics.map fun m =>
          "\x7b\"name\":\"" ++ m.name ++ "\",\"type\":\"" ++ m.type ++
          "\",\"value\":" ++ jsonStringifyMVal m.value ++ "\x7d") ++
      "]\x7d"

/-- JS truthiness (`Boolean(value)`) for the values this bridge handles. -/
def jsTruthy : JVal → Bool
  | .prim (.num q) => decide (q ≠ 0)
  | .prim (.bool b) => b
  | .prim (.str s) => decide (s ≠ "")
  | .nullV => false
  | .nanV => false
  | .recV _ => true
  | .tmplV _ => true

/-- Embedding of `plcToSparkplugType` (mappings.ts lines 19-33). -/
def plcToSparkplugType (plcDatatype : String) : String :=
  let s := jsToLower plcDatatype
  if s = "number" then "double"
  else if s = "boolean" then "boolean"
  else if s = "string" then "string"
  else if s = "udt" then "template"
  else "string"

/-- The expected Sparkplug type of a scalar metric, as computed by the type
mismatch checks at part_000 lines 206 and 595:
`datatype === "number" ? "double" : datatype === "boolean" ? "boolean" : "string"`. -/
def expectedSparkplugType (datatype : String) : String :=
  if datatype = "number" then "double"
  else if datatype = "boolean" then "boolean"
  else "string"

/-- The primitive member kinds permitted in a UDT template definition
(`"number" | "boolean" | "string"`). -/
inductive MemberKind where
  | number
  | boolean
  | string
deriving DecidableEq, Repr

/-- One member of a UDT template definition. -/
structure UdtMember where
  name : String
  datatype : MemberKind
deriving DecidableEq, Repr

/-- A UDT template definition as carried on NATS messages
(`UdtTemplateDefinition` from the nats-schema package: name, optional
version, ordered member list — the shape used by mappings.ts). -/
structure UdtTemplate where
  name : String
  version : Option String
  members : List UdtMember
deriving DecidableEq, Repr

/-- Embedding of `memberToSparkplugType` (mappings.ts lines 189-195). -/
def memberToSparkplugType : MemberKind → String
  | .number => "double"
  | .boolean => "boolean"
  | .string => "string"

/-- The string form of a member kind (used when a flat-mode member is handed
to `createMetric`, whose `plcDatatype` parameter is a string). -/
def memberKindStr : MemberKind → String
  | .number => "number"
  | .boolean => "boolean"
  | .string => "string"

/-- Embedding of `convertMemberValue` (mappings.ts lines 200-214). A missing
record field is JS `undefined`, modelled as `none`. -/
def convertMemberValue (value : Option Prim) (datatype : MemberKind) : MVal :=
  match value with
  | none => .nullV
  | some v =>
      match datatype with
      | .number =>
          match v with
          | .num n => .prim (.num n)
          | v2 =>
              match parseFloatJS (jsString (.prim v2)) with
              | .prim p => .prim p
              | _ => .nanV
      | .boolean =>
          match v with
          | .bool b => .prim (.bool b)
          | v2 =>
              .prim (.bool
                (jsToLower (jsString (.prim v2)) = "true" || v2 = .num 1))
      | .string =>
          match v with
          | .str s => .prim (.str s)
          | v2 => .prim (.str (jsonStringifyPrim v2))

/-- Widen a template member value back to a general JS value. -/
def mvalToJVal : MVal → JVal
  | .prim p => .prim p
  | .nullV => .nullV
  | .nanV => .nanV

/-- One Sparkplug metric property (`{ value, type }`). -/
structure PropEntry where
  name : String
  value : JVal
  type : String
deriving DecidableEq, Repr

/-- A Synapse `SparkplugMetric` as built by this bridge: name, converted
value, Sparkplug type string, optional timestamp/scanRate/deadband, the
truthy-`disableRBE` marker, and the metadata properties in insertion order. -/
structure Metric where
  name : String
  value : JVal
  type : String
  timestamp : Option ℚ
  scanRate : Option ℚ
  deadband : Option Deadband
  disableRBE : Bool
  properties : List PropEntry
deriving DecidableEq, Repr

/-- Embedding of `createMetric` (mappings.ts lines 69-179). -/
def createMetric (name : String) (value : JVal) (plcDatatype : String)
    (timestamp : Option ℚ) (scanRate : Option ℚ) (deadband : Option Deadband)
    (disableRBE : Option Bool) (source : Option String) (quality : Option String)
    (moduleId : Option String) (description : Option String) : Metric :=
  let sparkplugType := plcToSparkplugType plcDatatype
  let convertedValue : JVal :=
    if sparkplugType = "double" then
      match value with
      | .prim (.num q) => .prim (.num q)
      | v => parseFloatJS (jsString v)
    else if sparkplugType = "boolean" then
      match value with
      | .prim (.bool b) => .prim (.bool b)
      | .prim (.str s) =>
          .prim (.bool
            (jsToLower s = "true" || s = "1" || jsToLower s = "on" ||
              jsToLower s = "yes"))
      | v => .prim (.bool (jsTruthy v))
    else if sparkplugType = "string" then
      match value with
      | .prim (.str s) => .prim (.str s)
      | .recV f => .prim (.str (jsonStringify (.recV f)))
      | .tmplV t => .prim (.str (jsonStringify (.tmplV t)))
      | v => .prim (.str (jsString v))
    else JVal.nullV
  let props := [PropEntry.mk "datatype" (.prim (.str plcDatatype)) "String"]
  let props := props ++
    (match source with
     | some s => [PropEntry.mk "source" (.prim (.str s)) "String"]
     | none => [])
  let props := props ++
    (match quality with
     | some qv => [PropEntry.mk "quality" (.prim (.str qv)) "String"]
     | none => [])
  let props := props ++
    (match deadband with
     | some db =>
         [PropEntry.mk "deadbandValue" (.prim (.num db.value)) "Double"] ++
           (match db.maxTime with
            | some mt => [PropEntry.mk "deadbandMaxTime" (.prim (.num mt)) "Int32"]
            | none => [])
     | none => [])
  let props := props ++
    (match moduleId with
     | some m => [PropEntry.mk "moduleId" (.prim (.str m)) "String"]
     | none => [])
  let props := props ++
    (match description with
     | some d => [PropEntry.mk "description" (.prim (.str d)) "String"]
     | none => [])
  { name := name
    value := convertedValue
    type := sparkplugType
    timestamp := timestamp
    scanRate := scanRate
    deadband := deadband
    disableRBE := decide (disableRBE = some true)
    properties := props }

/-- Embedding of `createTemplateDefinitionMetric` (mappings.ts lines 226-244).
The source stamps `Date.now()` internally; here the instant is the explicit
`now` parameter. -/
def createTemplateDefinitionMetric (template : UdtTemplate) (now : ℚ) : Metric :=
  { name := template.name
    value := .tmplV
      { isDefinition := true
        templateRef := ""
        version := template.version.getD "1.0"
        metrics := template.members.map fun m =>
          { name := m.name, type := memberToSparkplugType m.datatype, value := .nullV } }
    type := "template"
    timestamp := some now
    scanRate := none
    deadband := none
    disableRBE := false
    properties := [] }

/-- Embedding of `createTemplateInstanceMetric` (mappings.ts lines 256-289). -/
def createTemplateInstanceMetric (name : String) (value : List (String × Prim))
    (template : UdtTemplate) (timestamp : Option ℚ) (source : Option String)
    (quality : Option String) (moduleId : Option String)
    (description : Option String) : Metric :=
  let props := ([] : List PropEntry) ++
    (match source with
     | some s => [PropEntry.mk "source" (.prim (.str s)) "String"]
     | none => []) ++
    (match quality with
     | some qv => [PropEntry.mk "quality" (.prim (.str qv)) "String"]
     | none => []) ++
    (match moduleId with
     | some m => [PropEntry.mk "moduleId" (.prim (.str m)) "String"]
     | none => []) ++
    (match description with
     | some d => [PropEntry.mk "description" (.prim (.str d)) "String"]
     | none => [])
  { name := name
    value := .tmplV
      { isDefinition := false
        templateRef := template.name
        version := ""
        metrics := template.members.map fun m =>
          { name := m.name
            type := memberToSparkplugType m.datatype
            value := convertMemberValue (assocGet m.name value) m.datatype } }
    type := "template"
    timestamp := timestamp
    scanRate := none
    deadband := none
    disableRBE := false
    properties := props }

/-- Embedding of `flattenUdtToMetrics` (mappings.ts lines 298-328): the
insertion-ordered `Map` of `"{variableId}/{memberName}" → metric`. -/
def flattenUdtToMetrics (variableId : String) (value : List (String × Prim))
    (template : UdtTemplate) (timestamp : Option ℚ) (source : Option String)
    (quality : Option String) (moduleId : Option String) :
    List (String × Metric) :=
  template.members.map fun member =>
    let flatName := variableId ++ "/" ++ member.name
    let memberValue := convertMemberValue (assocGet member.name value) member.datatype
    (flatName,
      createMetric flatName (mvalToJVal memberValue) (memberKindStr member.datatype)
        timestamp none none none source quality moduleId none)

/-- Minimal JSON token parse used by the reverse UDT command conversion:
accepts `true`/`false`, quoted strings without escapes, and integers. -/
def parsePrimToken (s : String) : Option Prim :=
  let t := s.trim
  if t = "true" then some (.bool true)
  else if t = "false" then some (.bool false)
  else if t.startsWith "\"" && t.endsWith "\"" && decide (2 ≤ t.length) then
    some (.str ((t.drop 1).dropRight 1))
  else
    match t.toInt? with
    | some i => some (.num i)
    | none => none

/-- Parse one `"key": value` field of a flat JSON object. -/
def parseJsonField (part : String) : Option (String × Prim) :=
  match part.splitOn ":" with
  | [k, v] =>
      let kt := k.trim
      if kt.startsWith "\"" && kt.endsWith "\"" && decide (2 ≤ kt.length) then
        match parsePrimToken v with
        | some p => some ((kt.drop 1).dropRight 1, p)
        | none => none
      else none
  | _ => none

/-- Collect a list of optional results, failing if any element failed. -/
def collectOptions : List (Option α) → Option (List α)
  | [] => some []
  | none :: _ => none
  | some a :: rest =>
      match collectOptions rest with
      | some as2 => some (a :: as2)
      | none => none

/-- A simplified `JSON.parse` for the shapes the reverse UDT command path can
meet: primitives, `null`, and flat objects of primitives (fields separated by
commas, no nested objects or escaped strings — richer documents make the
parse fail, which the source maps to "return the original string"). -/
def jsonParseSimple (s : String) : Option JVal :=
  let t := s.trim
  if t = "null" then some .nullV
  else if t.startsWith "\x7b" && t.endsWith "\x7d" && decide (2 ≤ t.length) then
    let inner := ((t.drop 1).dropRight 1).trim
    if inner = "" then some (.recV [])
    else
      match collectOptions ((inner.splitOn ",").map parseJsonField) with
      | some fields => some (.recV fields)
      | none => none
  else
    match parsePrimToken t with
    | some p => some (.prim p)
    | none => none

/-- Embedding of `sparkplugToPLCValue` (mappings.ts lines 336-368). -/
def sparkplugToPLCValue (value : JVal) (targetType : String) : JVal :=
  let t := jsToLower targetType
  if t = "number" then
    match value with
    | .prim (.num q) => .prim (.num q)
    | v => parseFloatJS (jsString v)
  else if t = "boolean" then
    match value with
    | .prim (.bool b) => .prim (.bool b)
    | .prim (.str s) =>
        .prim (.bool
          (jsToLower s = "true" || s = "1" || jsToLower s = "on" ||
            jsToLower s = "yes"))
    | v => .prim (.bool (jsTruthy v))
  else if t = "string" then .prim (.str (jsString value))
  else if t = "udt" then
    match value with
    | .prim (.str s) =>
        match jsonParseSimple s with
        | some j => j
        | none => .prim (.str s)
    | v => v
  else .prim (.str (jsString value))

-- =============================================================================
-- Bridge state and the rebirth batching coordinator
-- (src/unnamed/part_000 lines 98-131)
-- =============================================================================

/-- A tracked PLC variable (`PlcVariable`, part_000 lines 27-38). -/
structure PlcVar where
  id : String
  description : String
  datatype : String
  value : JVal
  deadband : Option Deadband
  disableRBE : Option Bool
  moduleId : String
  udtTemplate : Option UdtTemplate
deriving DecidableEq, Repr

/-- The bridge's mutable state: the `variables` map, the `rbeState` map, the
`knownTemplates` map, the synapse device's metric table, and the timer
machinery behind `scheduleRebirth` (`rebirthTimer`/`rebirthPending`).
`timers` is the set of live `setTimeout` registrations as (handle, fireTime)
pairs; `nextHandle` feeds fresh handles. -/
structure BridgeState where
  vars : List (String × PlcVar)
  rbe : List (String × RBEState)
  knownTemplates : List (String × UdtTemplate)
  deviceMetrics : List (String × Metric)
  timers : List (ℕ × ℚ)
  nextHandle : ℕ
  rebirthTimer : Option ℕ
  rebirthPending : Bool
deriving DecidableEq, Repr

/-- An observable publication handed to the Telemetry Publisher: a DDATA
(`publishDeviceData`) or a DBIRTH (`publishDeviceBirth`) with its payload
timestamp and metric list. -/
inductive Output where
  | ddata (timestamp : ℚ) (metrics : List Metric)
  | dbirth (timestamp : ℚ) (metrics : List Metric)
deriving DecidableEq, Repr

/-- `REBIRTH_DEBOUNCE_MS` (part_000 line 98). -/
def REBIRTH_DEBOUNCE_MS : ℚ := 500

/-- Embedding of `scheduleRebirth` (part_000 lines 102-131): set
`rebirthPending`, cancel the outstanding debounce timer if any
(`clearTimeout`), and register a fresh timer for `now + 500`. -/
def scheduleRebirth (st : BridgeState) (now : ℚ) : BridgeState :=
  let timers :=
    match st.rebirthTimer with
    | some h => st.timers.filter fun q => decide (q.1 ≠ h)
    | none => st.timers
  { st with
    rebirthPending := true
    timers := (st.nextHandle, now + REBIRTH_DEBOUNCE_MS) :: timers
    nextHandle := st.nextHandle + 1
    rebirthTimer := some st.nextHandle }

/-- The debounce timer's callback (part_000 lines 109-130): clear the handle
and the pending flag, then — when the MQTT connection is up (the device entry
itself always exists once the node is created) — publish one DBIRTH carrying
every device metric with the fire-time timestamp. -/
def runTimerCallback (mqttUp : Bool) (fireAt : ℚ) (st : BridgeState) :
    BridgeState × Option Output :=
  let st2 := { st with rebirthTimer := none, rebirthPending := false }
  if mqttUp then
    (st2, some (.dbirth fireAt
      (st2.deviceMetrics.map fun p => { p.2 with timestamp := some fireAt })))
  else (st2, none)

/-- Event-loop timer delivery: run the callback of every live timer whose
fire time has been reached by `now`, removing it from the live set. -/
def fireDueTimers (mqttUp : Bool) (st : BridgeState) (now : ℚ) :
    BridgeState × List Output :=
  (st.timers.filter fun p => decide (p.2 ≤ now)).foldl
    (fun acc p =>
      let r := runTimerCallback mqttUp p.2 acc.1
      (r.1, acc.2 ++ r.2.toList))
    ({ st with timers := st.timers.filter fun p => decide (¬ p.2 ≤ now) }, [])

/-- Drive a sequence of `scheduleRebirth` calls at the given instants,
delivering any timers that come due before each call (the single-threaded
event loop: a timer whose deadline has passed fires before the next call
runs). -/
def runRebirthCalls (mqttUp : Bool) : BridgeState → List ℚ → BridgeState × List Output
  | st, [] => (st, [])
  | st, t :: rest =>
      let r1 := fireDueTimers mqttUp st t
      let st2 := scheduleRebirth r1.1 t
      let r2 := runRebirthCalls mqttUp st2 rest
      (r2.1, r1.2 ++ r2.2)

/-- The coordinator's Pending configuration: exactly one live debounce timer,
registered for `tl + 500` where `tl` was the last `scheduleRebirth` call,
with `rebirthTimer` holding its handle and `rebirthPending` set. -/
def RebirthArmed (tl : ℚ) (st : BridgeState) : Prop :=
  ∃ h, st.timers = [(h, tl + REBIRTH_DEBOUNCE_MS)] ∧
    st.rebirthTimer = some h ∧ st.rebirthPending = true

-- =============================================================================
-- Bridge loop — embedding of the single-value path, the batch path and the
-- subject dispatch (src/unnamed/part_000 lines 150-280 and 437-664)
-- =============================================================================

/-- One single-value NATS data message (part_000 lines 462-472). -/
structure SingleMsg where
  variableId : String
  value : JVal
  datatype : String
  deadband : Option Deadband
  disableRBE : Option Bool
  description : Option String
  udtTemplate : Option UdtTemplate
deriving DecidableEq, Repr

/-- Datatype inference from the actual value (part_000 lines 481-488, also
172-178): a numeric literal forces "number", a boolean literal forces
"boolean", anything else keeps the declared datatype. -/
def correctDatatype (value : JVal) (datatype : String) : String :=
  match value with
  | .prim (.num _) => if datatype ≠ "number" then "number" else datatype
  | .prim (.bool _) => if datatype ≠ "boolean" then "boolean" else datatype
  | _ => datatype

/-- Upsert into the `variables` map (part_000 lines 490-513): an existing
entry's value/deadband are overwritten unconditionally, `disableRBE` and
`udtTemplate` only when the message carries them, and the datatype is the
corrected one; an unknown id gains a fresh entry. -/
def upsertVariable (sourceModuleId : String) (data : SingleMsg) (datatype : String)
    (vars : List (String × PlcVar)) : List (String × PlcVar) :=
  match assocGet data.variableId vars with
  | some existing =>
      assocSet data.variableId
        { existing with
          value := data.value
          deadband := data.deadband
          disableRBE :=
            match data.disableRBE with
            | some b => some b
            | none => existing.disableRBE
          udtTemplate :=
            match data.udtTemplate with
            | some t => some t
            | none => existing.udtTemplate
          datatype := datatype } vars
  | none =>
      assocSet data.variableId
        { id := data.variableId
          description := sourceModuleId ++ "/" ++ data.variableId
          datatype := datatype
          value := data.value
          deadband := data.deadband
          disableRBE := data.disableRBE
          moduleId := sourceModuleId
          udtTemplate := data.udtTemplate } vars

/-- The cast `value as Record<string, unknown>` used on the UDT paths: member
lookups on a non-object value yield JS `undefined`, modelled by the empty
field list. -/
def asRecord : JVal → List (String × Prim)
  | .recV f => f
  | _ => []

/-- Nested-mode (useTemplates) processing of a UDT message
(part_000 lines 520-563): register the template definition once, then either
add a new template-instance metric (recording its stringified value and
scheduling a rebirth) or run the content-change check — whose `shouldPublish`
call passes no deadband — record, refresh the stored metric value, and
publish a DDATA only when MQTT is up and no rebirth is pending. -/
def processTemplateNested (mqttUp : Bool) (st : BridgeState) (now : ℚ)
    (sourceModuleId : String) (data : SingleMsg) (tpl : UdtTemplate) :
    BridgeState × List Output :=
  let udtValue := asRecord data.value
  let reg :=
    if (assocGet tpl.name st.knownTemplates).isSome then
      (st.knownTemplates, st.deviceMetrics)
    else
      (assocSet tpl.name tpl st.knownTemplates,
        assocSet tpl.name (createTemplateDefinitionMetric tpl now) st.deviceMetrics)
  let kt := reg.1
  let dm := reg.2
  let instanceMetric := createTemplateInstanceMetric data.variableId udtValue tpl
    (some now) (some "plc") (some "good") (some sourceModuleId) data.description
  if (assocGet data.variableId dm).isNone then
    (scheduleRebirth
      { st with
        knownTemplates := kt
        deviceMetrics := assocSet data.variableId instanceMetric dm
        rbe := recordPublish st.rbe now data.variableId
          (.prim (.str (jsonStringifyRecord udtValue))) } now, [])
  else
    if shouldPublish st.rbe now data.variableId
        (.prim (.str (jsonStringifyRecord udtValue))) none none then
      let dm2 :=
        match assocGet data.variableId dm with
        | some m => assocSet data.variableId { m with value := instanceMetric.value } dm
        | none => dm
      let st2 :=
        { st with
          knownTemplates := kt
          deviceMetrics := dm2
          rbe := recordPublish st.rbe now data.variableId
            (.prim (.str (jsonStringifyRecord udtValue))) }
      if mqttUp && !st.rebirthPending then
        (st2, [.ddata now [{ instanceMetric with timestamp := some now }]])
      else (st2, [])
    else ({ st with knownTemplates := kt, deviceMetrics := dm }, [])

/-- One iteration of the flat-mode loop over the flattened UDT members
(part_000 lines 567-582). Its `shouldPublish` call also passes no deadband. -/
def flatStep (mqttUp : Bool) (now : ℚ) (acc : BridgeState × List Output)
    (entry : String × Metric) : BridgeState × List Output :=
  let st := acc.1
  let outs := acc.2
  let flatName := entry.1
  let flatMetric := entry.2
  if (assocGet flatName st.deviceMetrics).isNone then
    (scheduleRebirth
      { st with
        deviceMetrics := assocSet flatName flatMetric st.deviceMetrics
        rbe := recordPublish st.rbe now flatName flatMetric.value } now, outs)
  else if shouldPublish st.rbe now flatName flatMetric.value none none then
    let st2 := { st with rbe := recordPublish st.rbe now flatName flatMetric.value }
    if mqttUp && !st.rebirthPending then
      (st2, outs ++ [.ddata now [{ flatMetric with timestamp := some now }]])
    else (st2, outs)
  else (st, outs)

/-- Flat-mode processing of a UDT message (part_000 lines 564-583). -/
def processTemplateFlat (mqttUp : Bool) (st : BridgeState) (now : ℚ)
    (sourceModuleId : String) (data : SingleMsg) (tpl : UdtTemplate) :
    BridgeState × List Output :=
  (flattenUdtToMetrics data.variableId (asRecord data.value) tpl (some now)
    (some "plc") (some "good") (some sourceModuleId)).foldl
    (flatStep mqttUp now) (st, [])

/-- Scalar (number/boolean/string) processing of a single-value message
(part_000 lines 587-659): create or type-correct the metric (recording the
value and scheduling a rebirth), apply `setValue` in memory, then publish a
DDATA — and record — only when the metric pre-existed with the right type, no
rebirth is pending, MQTT is up and the RBE check passes. -/
def processScalarPath (mqttUp : Bool) (st : BridgeState) (now : ℚ)
    (sourceModuleId : String) (data : SingleMsg) (datatype : String) :
    BridgeState × List Output :=
  let existingMetric := assocGet data.variableId st.deviceMetrics
  let isNewMetric := existingMetric.isNone
  let needsTypeCorrection :=
    match existingMetric with
    | some m => decide (m.type ≠ expectedSparkplugType datatype)
    | none => false
  let st1 :=
    if isNewMetric || needsTypeCorrection then
      scheduleRebirth
        { st with
          deviceMetrics :=
            assocSet data.variableId
              (createMetric data.variableId data.value datatype (some now) none
                data.deadband data.disableRBE (some "plc") (some "good")
                (some sourceModuleId) data.description)
              (if needsTypeCorrection then assocDelete data.variableId st.deviceMetrics
               else st.deviceMetrics)
          rbe := recordPublish st.rbe now data.variableId data.value } now
    else st
  let st2 :=
    { st1 with
      deviceMetrics :=
        match assocGet data.variableId st1.deviceMetrics with
        | some m => assocSet data.variableId { m with value := data.value } st1.deviceMetrics
        | none => st1.deviceMetrics }
  let trackedVar := assocGet data.variableId st2.vars
  if mqttUp && !isNewMetric && !needsTypeCorrection && !st2.rebirthPending &&
      shouldPublish st2.rbe now data.variableId data.value
        (match trackedVar with | some v => v.deadband | none => none)
        (match trackedVar with | some v => v.disableRBE | none => none) then
    match assocGet data.variableId st2.deviceMetrics with
    | some metric =>
        ({ st2 with rbe := recordPublish st2.rbe now data.variableId data.value },
          [.ddata now [{ metric with value := data.value, timestamp := some now }]])
    | none => (st2, [])
  else (st2, [])

/-- Processing of one single-value NATS message (part_000 lines 461-659):
datatype correction, variables upsert, then the template (nested or flat) or
scalar path. -/
def processSingle (useTemplates mqttUp : Bool) (st : BridgeState) (now : ℚ)
    (sourceModuleId : String) (data : SingleMsg) : BridgeState × List Output :=
  let datatype := correctDatatype data.value data.datatype
  let st1 := { st with vars := upsertVariable sourceModuleId data datatype st.vars }
  match data.udtTemplate with
  | some tpl =>
      if datatype = "udt" then
        if useTemplates then processTemplateNested mqttUp st1 now sourceModuleId data tpl
        else processTemplateFlat mqttUp st1 now sourceModuleId data tpl
      else processScalarPath mqttUp st1 now sourceModuleId data datatype
  | none => processScalarPath mqttUp st1 now sourceModuleId data datatype

/-- One item of a batch message (part_000 lines 138-143). -/
structure BatchItem where
  variableId : String
  value : Prim
  datatype : String
  deadband : Option Deadband
deriving DecidableEq, Repr

/-- Batch message format from tentacle-ethernetip (part_000 lines 134-144). -/
structure BatchMsg where
  moduleId : String
  deviceId : String
  timestamp : ℚ
  values : List BatchItem
deriving DecidableEq, Repr

/-- Loop body of `processBatchMessage` (part_000 lines 166-245); the
accumulator carries the bridge state, the `ddataValues` map and the
`needsRebirth` flag. -/
def processBatchItem (sourceModuleId : String) (now : ℚ)
    (acc : BridgeState × List (String × Prim) × Bool) (item : BatchItem) :
    BridgeState × List (String × Prim) × Bool :=
  let st := acc.1
  let ddataValues := acc.2.1
  let needsRebirth := acc.2.2
  let datatype := correctDatatype (.prim item.value) item.datatype
  let vars2 :=
    match assocGet item.variableId st.vars with
    | some existing =>
        assocSet item.variableId
          { existing with
            value := .prim item.value
            deadband := item.deadband
            datatype := datatype } st.vars
    | none =>
        assocSet item.variableId
          { id := item.variableId
            description := sourceModuleId ++ "/" ++ item.variableId
            datatype := datatype
            value := .prim item.value
            deadband := item.deadband
            disableRBE := none
            moduleId := sourceModuleId
            udtTemplate := none } st.vars
  let st2 := { st with vars := vars2 }
  let existingMetric := assocGet item.variableId st2.deviceMetrics
  let isNewMetric := existingMetric.isNone
  let needsTypeCorrection :=
    match existingMetric with
    | some m => decide (m.type ≠ expectedSparkplugType datatype)
    | none => false
  if isNewMetric || needsTypeCorrection then
    ({ st2 with
        deviceMetrics :=
          assocSet item.variableId
            (createMetric item.variableId (.prim item.value) datatype (some now) none
              item.deadband none (some "plc") (some "good") (some sourceModuleId) none)
            (if needsTypeCorrection then assocDelete item.variableId st2.deviceMetrics
             else st2.deviceMetrics)
        rbe := recordPublish st2.rbe now item.variableId (.prim item.value) },
      ddataValues, true)
  else
    if shouldPublish st2.rbe now item.variableId (.prim item.value)
        (match assocGet item.variableId st2.vars with
         | some v => v.deadband
         | none => none) none then
      ({ st2 with rbe := recordPublish st2.rbe now item.variableId (.prim item.value) },
        assocSet item.variableId item.value ddataValues, needsRebirth)
    else (st2, ddataValues, needsRebirth)

/-- Embedding of `processBatchMessage` (part_000 lines 150-280): fold the
items, schedule one batched rebirth if any item was new or type-corrected,
then — only when MQTT is up and no rebirth is pending — emit one combined
DDATA with the recorded values of the metrics that passed the filter. -/
def processBatchMessage (st : BridgeState) (now : ℚ) (msg : BatchMsg)
    (sourceModuleId : String) (mqttUp : Bool) : BridgeState × List Output :=
  let folded := msg.values.foldl (processBatchItem sourceModuleId now) (st, [], false)
  let st1 := folded.1
  let ddataValues := folded.2.1
  let needsRebirth := folded.2.2
  let st2 := if needsRebirth then scheduleRebirth st1 now else st1
  if decide (ddataValues ≠ []) && mqttUp && !st2.rebirthPending then
    (st2,
      [.ddata now
        (ddataValues.foldl
          (fun ms p =>
            match assocGet p.1 st2.deviceMetrics with
            | some metric => ms ++ [{ metric with value := .prim p.2, timestamp := some now }]
            | none => ms)
          [])])
  else (st2, [])

/-- An inbound NATS data message after JSON parsing and shape detection
(part_000 lines 454-459: an array-valued `values` field selects the batch
shape). -/
inductive InboundMsg where
  | batch (b : BatchMsg)
  | single (s : SingleMsg)
deriving DecidableEq, Repr

/-- One iteration of the bridge loop (part_000 lines 440-459): extract the
source module id as the first `.`-separated segment of the NATS subject, skip
raw `ethernetip` traffic entirely, otherwise dispatch on the batch or
single-value shape. -/
def handleMessage (useTemplates mqttUp : Bool) (st : BridgeState) (now : ℚ)
    (subject : String) (msg : InboundMsg) : BridgeState × List Output :=
  let sourceModuleId := (splitOnChar '.' subject).headD ""
  if sourceModuleId = "ethernetip" then (st, [])
  else
    match msg with
    | .batch b => processBatchMessage st now b sourceModuleId mqttUp
    | .single s => processSingle useTemplates mqttUp st now sourceModuleId s

-- =============================================================================
-- Concrete example states exercising the rebirth-pending window
-- =============================================================================

/-- A bridge state with a rebirth pending (armed debounce timer), the
template "T" already registered, a template-instance metric for id "v", and a
prior filter entry for "v". -/
def exPendingState : BridgeState :=
  ⟨[], [("v", ⟨.prim (.str "old"), 0⟩)], [("T", ⟨"T", none, [⟨"a", .number⟩]⟩)],
    [("v", ⟨"v", .nullV, "template", none, none, none, false, []⟩)],
    [(0, 400)], 1, some 0, true⟩

/-- A UDT message for id "v" (template "T") whose content differs from the
last recorded value. -/
def exUdtMsg : SingleMsg :=
  ⟨"v", .recV [("a", .num 2)], "udt", none, none, none,
    some ⟨"T", none, [⟨"a", .number⟩]⟩⟩

/-- A bridge state with a rebirth pending and an existing correctly-typed
scalar metric for id "s". -/
def exScalarPendingState : BridgeState :=
  ⟨[], [("s", ⟨.prim (.num 1), 0⟩)], [],
    [("s", ⟨"s", .prim (.num 1), "double", none, none, none, false, []⟩)],
    [(0, 400)], 1, some 0, true⟩

/-- A scalar numeric message for id "s". -/
def exScalarMsg : SingleMsg :=
  ⟨"s", .prim (.num 5), "number", none, none, none, none⟩

-- =============================================================================
-- Command Router — embedding of the DCMD handler
-- (src/unnamed/part_000 lines 363-435)
-- =============================================================================

/-- A reverse command forwarded to a module's NATS command channel. The
source publishes `String(convertedValue)` on the
`{moduleId}.command.{variableId}` subject; the model keeps the components and
the pre-encoding value. -/
structure Command where
  moduleId : String
  variableId : String
  value : JVal
deriving DecidableEq, Repr

/-- Result of handling one DCMD metric: the forwarded commands, the updated
variables map and device metrics, and whether the target variable was found
in the registry (`false` mirrors the "not yet discovered, forwarding raw
value" advisory). -/
structure DcmdResult where
  commands : List Command
  vars : List (String × PlcVar)
  deviceMetrics : List (String × Metric)
  verified : Bool
deriving DecidableEq, Repr

/-- `metricName.split("/").pop()` — the last `/`-separated segment. -/
def lastSegment (s : String) : String := (splitOnChar '/' s).getLastD ""

/-- Scalar DCMD routing (part_000 lines 387-429): resolve by exact id, then
by stripping one path segment; convert through `sparkplugToPLCValue` when the
variable is known, otherwise forward primitives unchanged (`String(...)` for
non-primitives); publish the command to the owner module (defaulting to
"ethernetip" for unknown variables); and for known variables update the
stored variable value and the device metric value in memory. -/
def handleDcmdScalar (vars : List (String × PlcVar)) (dm : List (String × Metric))
    (metricName : String) (value : JVal) : DcmdResult :=
  let found := assocGet metricName vars
  let resolvedId :=
    if found.isNone && metricName.data.contains '/' then lastSegment metricName
    else metricName
  let theVar :=
    if found.isNone && metricName.data.contains '/' then assocGet (lastSegment metricName) vars
    else found
  let sourceModuleId :=
    match theVar with
    | some v => v.moduleId
    | none => "ethernetip"
  let convertedValue :=
    match theVar with
    | some v => sparkplugToPLCValue value v.datatype
    | none =>
        match value with
        | .prim p => .prim p
        | other => .prim (.str (jsString other))
  match theVar with
  | some v =>
      { commands := [⟨sourceModuleId, resolvedId, convertedValue⟩]
        vars := assocSet resolvedId { v with value := convertedValue } vars
        deviceMetrics :=
          if (assocGet metricName dm).isSome then
            match assocGet metricName dm with
            | some m => assocSet metricName { m with value := convertedValue } dm
            | none => dm
          else if (assocGet resolvedId dm).isSome then
            match assocGet resolvedId dm with
            | some m => assocSet resolvedId { m with value := convertedValue } dm
            | none => dm
          else dm
        verified := true }
  | none =>
      { commands := [⟨sourceModuleId, resolvedId, convertedValue⟩]
        vars := vars
        deviceMetrics := dm
        verified := false }

/-- Handling of one DCMD payload metric (part_000 lines 368-429): a template
instance command (UDT variable with a template and an object value carrying a
`metrics` array) is decomposed into one sub-command per member, addressed
`{metricName}/{memberName}`, with no registry update; anything else goes
through the scalar branch. -/
def handleDcmdMetric (vars : List (String × PlcVar)) (dm : List (String × Metric))
    (metricName : String) (value : JVal) : DcmdResult :=
  match assocGet metricName vars, value with
  | some v, .tmplV t =>
      if v.datatype = "udt" && v.udtTemplate.isSome then
        { commands := t.metrics.map fun m =>
            ⟨v.moduleId, metricName ++ "/" ++ m.name, mvalToJVal m.value⟩
          vars := vars
          deviceMetrics := dm
          verified := true }
      else handleDcmdScalar vars dm metricName value
  | _, _ => handleDcmdScalar vars dm metricName value

-- =============================================================================
-- Helper lemmas about association lists
-- =============================================================================

@[simp]
theorem assocGet_nil (k : String) : assocGet k ([] : List (String × α)) = none := rfl

@[simp]
theorem assocGet_cons (k k2 : String) (v : α) (rest : List (String × α)) :
    assocGet k ((k2, v) :: rest) = if k = k2 then some v else assocGet k rest := rfl

@[simp]
theorem assocGet_set_self (k : String) (v : α) (l : List (String × α)) :
    assocGet k (assocSet k v l) = some v := by
  induction l with
  | nil => simp [assocSet]
  | cons hd tl ih =>
      obtain ⟨k2, v2⟩ := hd
      by_cases h : k = k2 <;> simp [assocSet, assocGet, h, ih]

theorem assocGet_set_ne (k k0 : String) (v : α) (l : List (String × α)) (h : k ≠ k0) :
    assocGet k (assocSet k0 v l) = assocGet k l := by
  induction l with
  | nil => simp [assocSet, assocGet, h]
  | cons hd tl ih =>
      obtain ⟨k2, v2⟩ := hd
      by_cases h2 : k0 = k2
      · subst h2; simp [assocSet, assocGet, h]
      · simp [assocSet, assocGet, h2]
        by_cases h3 : k = k2 <;> simp [h3, ih]

@[simp]
theorem assocGet_delete_self (k : String) (l : List (String × α)) :
    assocGet k (assocDelete k l) = none := by
  induction l with
  | nil => simp [assocDelete]
  | cons hd tl ih =>
      obtain ⟨k2, v2⟩ := hd
      by_cases h : k = k2
      · subst h; simp [assocDelete, ih]
      · simp [assocDelete, assocGet, h, ih]

-- =============================================================================
-- Helper lemmas about the debounce timer machinery
-- =============================================================================

theorem fireDueTimers_skip (mq : Bool) (st : BridgeState) (t : ℚ)
    (h : ∀ p ∈ st.timers, ¬ p.2 ≤ t) :
    fireDueTimers mq st t = (st, []) := by
  have hdue : (st.timers.filter fun p => decide (p.2 ≤ t)) = [] := by
    rw [List.filter_eq_nil_iff]
    intro p hp
    simpa using h p hp
  have hrem : (st.timers.filter fun p => decide (¬ p.2 ≤ t)) = st.timers := by
    rw [List.filter_eq_self]
    intro p hp
    simpa using h p hp
  simp only [fireDueTimers, hdue, hrem]
  rfl

theorem scheduleRebirth_armed (st : BridgeState) (t : ℚ)
    (h : st.timers = [] ∧ st.rebirthTimer = none ∨
      ∃ hh x, st.timers = [(hh, x)] ∧ st.rebirthTimer = some hh) :
    RebirthArmed t (scheduleRebirth st t) := by
  refine ⟨st.nextHandle, ?_, rfl, rfl⟩
  simp only [scheduleRebirth]
  rcases h with ⟨ht, hrt⟩ | ⟨hh, x, ht, hrt⟩
  · rw [hrt, ht]
  · rw [hrt, ht]
    simp

theorem runRebirthCalls_armed (ts : List ℚ) :
    ∀ (st : BridgeState) (tl : ℚ),
      RebirthArmed tl st →
      List.Chain (fun a b => a ≤ b ∧ b < a + REBIRTH_DEBOUNCE_MS) tl ts →
      (runRebirthCalls true st ts).2 = [] ∧
      RebirthArmed (List.getLastD ts tl) (runRebirthCalls true st ts).1 := by
  induction ts with
  | nil => exact fun st tl h _ => ⟨rfl, h⟩
  | cons t rest ih =>
      intro st tl harm hchain
      rw [List.chain_cons] at hchain
      obtain ⟨⟨hle, hlt⟩, hchain2⟩ := hchain
      obtain ⟨hh, htimers, hrt, hp⟩ := harm
      have hskip : fireDueTimers true st t = (st, []) := by
        apply fireDueTimers_skip
        intro p hp2
        rw [htimers] at hp2
        simp at hp2
        rw [hp2]
        simp only []
        show ¬ tl + REBIRTH_DEBOUNCE_MS ≤ t
        linarith
      have harm2 : RebirthArmed t (scheduleRebirth st t) :=
        scheduleRebirth_armed st t
          (Or.inr ⟨hh, tl + REBIRTH_DEBOUNCE_MS, htimers, hrt⟩)
      have hres := ih (scheduleRebirth st t) t harm2 hchain2
      simp only [runRebirthCalls, hskip, List.getLastD_cons]
      exact ⟨by simpa using hres.1, hres.2⟩

theorem runRebirthCalls_from_idle (st0 : BridgeState) (t0 : ℚ) (rest : List ℚ)
    (hT : st0.timers = []) (hN : st0.rebirthTimer = none)
    (hchain : List.Chain (fun a b => a ≤ b ∧ b < a + REBIRTH_DEBOUNCE_MS) t0 rest) :
    (runRebirthCalls true st0 (t0 :: rest)).2 = [] ∧
    RebirthArmed (List.getLastD rest t0) (runRebirthCalls true st0 (t0 :: rest)).1 := by
  have hskip : fireDueTimers true st0 t0 = (st0, []) := by
    apply fireDueTimers_skip
    intro p hp
    rw [hT] at hp
    exact absurd hp (List.not_mem_nil p)
  have harm : RebirthArmed t0 (scheduleRebirth st0 t0) :=
    scheduleRebirth_armed st0 t0 (Or.inl ⟨hT, hN⟩)
  have hres := runRebirthCalls_armed rest (scheduleRebirth st0 t0) t0 harm hchain
  simp only [runRebirthCalls, hskip, List.getLastD_cons]
  exact ⟨by simpa using hres.1, hres.2⟩

theorem fireDueTimers_fire (st : BridgeState) (tl T : ℚ)
    (harm : RebirthArmed tl st) (hT : tl + REBIRTH_DEBOUNCE_MS ≤ T) :
    fireDueTimers true st T =
      ({ st with timers := [], rebirthTimer := none, rebirthPending := false },
        [.dbirth (tl + REBIRTH_DEBOUNCE_MS)
          (st.deviceMetrics.map fun p =>
            { p.2 with timestamp := some (tl + REBIRTH_DEBOUNCE_MS) })]) := by
  obtain ⟨hh, htimers, hrt, hp⟩ := harm
  have hdue : (st.timers.filter fun p => decide (p.2 ≤ T)) =
      [(hh, tl + REBIRTH_DEBOUNCE_MS)] := by
    rw [htimers]
    simp [hT]
  have hrem : (st.timers.filter fun p => decide (¬ p.2 ≤ T)) = [] := by
    rw [htimers]
    simp [hT]
  simp only [fireDueTimers, hdue, hrem]
  rfl

theorem chain_append_left {R : ℚ → ℚ → Prop} {a : ℚ} {l1 l2 : List ℚ}
    (h : List.Chain R a (l1 ++ l2)) : List.Chain R a l1 := by
  induction l1 generalizing a with
  | nil => exact List.Chain.nil
  | cons b t ih =>
      rw [List.cons_append, List.chain_cons] at h
      exact List.chain_cons.mpr ⟨h.1, ih h.2⟩

-- =============================================================================
-- Projection lemmas for scheduleRebirth
-- =============================================================================

@[simp]
theorem scheduleRebirth_vars (st : BridgeState) (now : ℚ) :
    (scheduleRebirth st now).vars = st.vars := rfl

@[simp]
theorem scheduleRebirth_rbe (st : BridgeState) (now : ℚ) :
    (scheduleRebirth st now).rbe = st.rbe := rfl

@[simp]
theorem scheduleRebirth_knownTemplates (st : BridgeState) (now : ℚ) :
    (scheduleRebirth st now).knownTemplates = st.knownTemplates := rfl

@[simp]
theorem scheduleRebirth_deviceMetrics (st : BridgeState) (now : ℚ) :
    (scheduleRebirth st now).deviceMetrics = st.deviceMetrics := rfl

@[simp]
theorem scheduleRebirth_rebirthPending (st : BridgeState) (now : ℚ) :
    (scheduleRebirth st now).rebirthPending = true := rfl

@[simp]
theorem scheduleRebirth_rebirthTimer (st : BridgeState) (now : ℚ) :
    (scheduleRebirth st now).rebirthTimer = some st.nextHandle := rfl

-- =============================================================================
-- Claims C1-C3: properties of the exception filter
-- =============================================================================

/-- C1: with a recorded `FilterState` entry whose last published value is
numeric, a deadband policy of threshold `db.value`, RBE not disabled, and the
staleness override not triggered, `shouldPublish` on a numeric value returns
true iff `|value − lastPublishedValue| > threshold` (strict: a delta exactly
equal to the threshold does not publish; with threshold 0 any nonzero delta
publishes). `shouldPublish` is embedded as a pure function of the filter
state, mirroring that the source only reads `rbeState`, so re-evaluation
without an intervening `recordPublish` yields the same answer by
construction. -/
theorem shouldPublish_numeric_deadband_iff
    (rbe : List (String × RBEState)) (now : ℚ) (id : String)
    (v last lastTime : ℚ) (db : Deadband) (dis : Option Bool)
    (hstate : assocGet id rbe = some ⟨.prim (.num last), lastTime⟩)
    (hdis : dis ≠ some true)
    (hstale : maxTimeExceeded db.maxTime (now - lastTime) = false) :
    (shouldPublish rbe now id (.prim (.num v)) (some db) dis = true
      ↔ |v - last| > db.value) := by
  simp [shouldPublish, hstate, hdis, hstale, isJsNumber]

/-- Witness for C1 at a concrete input: threshold 2, last value 10, new value
13, staleness window 1000ms not elapsed. -/
theorem shouldPublish_numeric_deadband_iff_witness :
    assocGet "t" [("t", (⟨.prim (.num 10), 0⟩ : RBEState))] =
        some ⟨.prim (.num 10), 0⟩ ∧
    (none : Option Bool) ≠ some true ∧
    maxTimeExceeded (some 1000) ((100 : ℚ) - 0) = false ∧
    (shouldPublish [("t", ⟨.prim (.num 10), 0⟩)] 100 "t" (.prim (.num 13))
        (some ⟨2, some 1000⟩) none = true ↔ |(13 : ℚ) - 10| > 2) :=
  ⟨rfl, by decide, by norm_num [maxTimeExceeded],
    shouldPublish_numeric_deadband_iff [("t", ⟨.prim (.num 10), 0⟩)] 100 "t"
      13 10 0 ⟨2, some 1000⟩ none rfl (by decide) (by norm_num [maxTimeExceeded])⟩

/-- C2: a variable with no `rbeState` entry always publishes, for every
value, every deadband policy (any threshold, any maxTime, or no policy at
all) and either setting of the disable flag. -/
theorem shouldPublish_first_observation
    (rbe : List (String × RBEState)) (now : ℚ) (id : String) (value : JVal)
    (deadband : Option Deadband) (dis : Option Bool)
    (hstate : assocGet id rbe = none) :
    shouldPublish rbe now id value deadband dis = true := by
  cases deadband with
  | none => rfl
  | some db =>
      by_cases h : dis = some true <;> simp [shouldPublish, hstate, h]

/-- Witness for C2: empty filter state, arbitrary concrete policy. -/
theorem shouldPublish_first_observation_witness :
    assocGet "fresh" ([] : List (String × RBEState)) = none ∧
    shouldPublish [] 42 "fresh" (.prim (.num 7))
      (some ⟨3, some 500⟩) (some false) = true :=
  ⟨rfl,
    shouldPublish_first_observation [] 42 "fresh" (.prim (.num 7))
      (some ⟨3, some 500⟩) (some false) rfl⟩

/-- C3 counterexample: the claim asserts the staleness override fires for
every `maxInterval` the policy can carry, but the source guards it with
`deadband.maxTime && ...`, and a `maxTime` of 0 is falsy in JS. With
`maxTime = 0`, last publish at time 0, a call at time 100 (so
`100 ≥ lastPublishedAt + 0`) and an unchanged numeric value, `shouldPublish`
returns false, not true. -/
theorem staleness_override_zero_counterexample :
    (100 : ℚ) ≥ 0 + 0 ∧
    shouldPublish [("x", ⟨.prim (.num 1), 0⟩)] 100 "x" (.prim (.num 1))
      (some ⟨5, some 0⟩) none = false := by
  refine ⟨by norm_num, ?_⟩
  norm_num [shouldPublish, assocGet, maxTimeExceeded, isJsNumber]
  decide

/-- C3 amended: for every **nonzero** `maxTime = M` (truthy in JS), a call at
time `≥ lastPublishedAt + M` returns true, for every current value, every
last published value, every threshold and either disable-flag setting. -/
theorem staleness_override_nonzero
    (rbe : List (String × RBEState)) (now : ℚ) (id : String)
    (value lastVal : JVal) (T m lastTime : ℚ) (dis : Option Bool)
    (hstate : assocGet id rbe = some ⟨lastVal, lastTime⟩)
    (hm : m ≠ 0) (helapsed : lastTime + m ≤ now) :
    shouldPublish rbe now id value (some ⟨T, some m⟩) dis = true := by
  by_cases h : dis = some true
  · simp [shouldPublish, h]
  · have hex : maxTimeExceeded (some m) (now - lastTime) = true := by
      simp [maxTimeExceeded, hm]
      linarith
    simp [shouldPublish, hstate, h, hex]

/-- Witness for the amended C3: maxTime 1000, last publish at 0, call at
time 1000 with an unchanged value. -/
theorem staleness_override_nonzero_witness :
    assocGet "x" [("x", (⟨.prim (.num 1), 0⟩ : RBEState))] =
        some ⟨.prim (.num 1), 0⟩ ∧
    (1000 : ℚ) ≠ 0 ∧ (0 : ℚ) + 1000 ≤ 1000 ∧
    shouldPublish [("x", ⟨.prim (.num 1), 0⟩)] 1000 "x" (.prim (.num 1))
      (some ⟨5, some 1000⟩) none = true :=
  ⟨rfl, by norm_num, by norm_num,
    staleness_override_nonzero [("x", ⟨.prim (.num 1), 0⟩)] 1000 "x"
      (.prim (.num 1)) (.prim (.num 1)) 5 1000 0 none
      rfl (by norm_num) (by norm_num)⟩

-- =============================================================================
-- Claim C7: round-trip decomposition of a structured value
-- =============================================================================

/-- C7: flattening the structured value `{a: 3.5, b: true}` with template
`{a: Number, b: Boolean}` in flat mode yields exactly two metrics, named
`"{id}/a"` and `"{id}/b"`, with values 3.5 and true; and the nested-mode
template-instance metric built from the same template and value carries the
ordered member list `[{a, 3.5}, {b, true}]` (with their Sparkplug member
types double and boolean). -/
theorem udt_roundtrip_decomposition (id tname : String) (ver : Option String)
    (ts : Option ℚ) (src qual mid dsc : Option String) :
    (flattenUdtToMetrics id [("a", .num 3.5), ("b", .bool true)]
        ⟨tname, ver, [⟨"a", .number⟩, ⟨"b", .boolean⟩]⟩ ts src qual mid).length = 2 ∧
    (flattenUdtToMetrics id [("a", .num 3.5), ("b", .bool true)]
        ⟨tname, ver, [⟨"a", .number⟩, ⟨"b", .boolean⟩]⟩ ts src qual mid).map
      Prod.fst = [id ++ "/a", id ++ "/b"] ∧
    (flattenUdtToMetrics id [("a", .num 3.5), ("b", .bool true)]
        ⟨tname, ver, [⟨"a", .number⟩, ⟨"b", .boolean⟩]⟩ ts src qual mid).map
      (fun p => p.2.value) = [.prim (.num 3.5), .prim (.bool true)] ∧
    (createTemplateInstanceMetric id [("a", .num 3.5), ("b", .bool true)]
        ⟨tname, ver, [⟨"a", .number⟩, ⟨"b", .boolean⟩]⟩ ts src qual mid dsc).value =
      .tmplV ⟨false, tname, "",
        [⟨"a", "double", .prim (.num 3.5)⟩, ⟨"b", "boolean", .prim (.bool true)⟩]⟩ := by
  refine ⟨rfl, ?_, rfl, rfl⟩
  show [id ++ "/" ++ "a", id ++ "/" ++ "b"] = _
  rw [String.append_assoc, String.append_assoc]
  rfl

-- =============================================================================
-- Claim C4: debounce coalescing of rebirth requests
-- =============================================================================

/-- C4: starting with no outstanding debounce timer, N `scheduleRebirth`
calls at instants `t0 :: rest`, each later call within less than the 500ms
debounce interval of the previous one, produce no emission during the burst;
the single armed timer then fires exactly one DBIRTH, timed one debounce
interval after the **last** call; afterwards no timer remains; and after every
prefix of the burst at most one timer is outstanding (each call cancels and
replaces the previous registration rather than adding a second). -/
theorem rebirth_debounce_coalescing (st0 : BridgeState) (t0 T : ℚ)
    (rest : List ℚ)
    (hTimers : st0.timers = []) (hTimer : st0.rebirthTimer = none)
    (hchain : List.Chain (fun a b => a ≤ b ∧ b < a + REBIRTH_DEBOUNCE_MS) t0 rest)
    (hT : List.getLastD rest t0 + REBIRTH_DEBOUNCE_MS ≤ T) :
    (runRebirthCalls true st0 (t0 :: rest)).2 = [] ∧
    (fireDueTimers true (runRebirthCalls true st0 (t0 :: rest)).1 T).2 =
      [Output.dbirth (List.getLastD rest t0 + REBIRTH_DEBOUNCE_MS)
        ((runRebirthCalls true st0 (t0 :: rest)).1.deviceMetrics.map fun p =>
          { p.2 with timestamp := some (List.getLastD rest t0 + REBIRTH_DEBOUNCE_MS) })] ∧
    (fireDueTimers true (runRebirthCalls true st0 (t0 :: rest)).1 T).1.timers = [] ∧
    ∀ pre suf, rest = pre ++ suf →
      (runRebirthCalls true st0 (t0 :: pre)).1.timers.length ≤ 1 := by
  obtain ⟨hquiet, harm⟩ := runRebirthCalls_from_idle st0 t0 rest hTimers hTimer hchain
  have hfire := fireDueTimers_fire (runRebirthCalls true st0 (t0 :: rest)).1
    (List.getLastD rest t0) T harm hT
  refine ⟨hquiet, ?_, ?_, ?_⟩
  · rw [hfire]
  · rw [hfire]
  · intro pre suf hsplit
    have hchainPre : List.Chain (fun a b => a ≤ b ∧ b < a + REBIRTH_DEBOUNCE_MS) t0 pre := by
      rw [hsplit] at hchain
      exact chain_append_left hchain
    obtain ⟨-, harmPre⟩ := runRebirthCalls_from_idle st0 t0 pre hTimers hTimer hchainPre
    obtain ⟨hh, htimersPre, -, -⟩ := harmPre
    rw [htimersPre]
    simp

/-- Witness for C4: three calls at 0, 100, 200 (gaps 100 < 500) from the
empty initial state, queried at time 700 = 200 + 500. -/
theorem rebirth_debounce_coalescing_witness :
    (runRebirthCalls true ⟨[], [], [], [], [], 0, none, false⟩ [0, 100, 200]).2 = [] ∧
    (fireDueTimers true
        (runRebirthCalls true ⟨[], [], [], [], [], 0, none, false⟩ [0, 100, 200]).1 700).2 =
      [Output.dbirth (List.getLastD [100, 200] 0 + REBIRTH_DEBOUNCE_MS)
        ((runRebirthCalls true ⟨[], [], [], [], [], 0, none, false⟩ [0, 100, 200]).1.deviceMetrics.map
          fun p => { p.2 with timestamp := some (List.getLastD [100, 200] 0 + REBIRTH_DEBOUNCE_MS) })] ∧
    (fireDueTimers true
        (runRebirthCalls true ⟨[], [], [], [], [], 0, none, false⟩ [0, 100, 200]).1 700).1.timers = [] ∧
    ∀ pre suf, [100, 200] = pre ++ suf →
      (runRebirthCalls true ⟨[], [], [], [], [], 0, none, false⟩ (0 :: pre)).1.timers.length ≤ 1 :=
  rebirth_debounce_coalescing ⟨[], [], [], [], [], 0, none, false⟩ 0 700 [100, 200]
    rfl rfl
    (by norm_num [List.chain_cons, REBIRTH_DEBOUNCE_MS])
    (by norm_num [List.getLastD_cons, REBIRTH_DEBOUNCE_MS])

-- =============================================================================
-- Helper lemmas about the type mapper and the scalar path
-- =============================================================================

theorem plcToSparkplugType_number : plcToSparkplugType "number" = "double" := by decide

theorem expectedSparkplugType_number : expectedSparkplugType "number" = "double" := by
  decide

theorem correctDatatype_num (q : ℚ) (d : String) :
    correctDatatype (.prim (.num q)) d = "number" := by
  by_cases h : d = "number" <;> simp [correctDatatype, h]

theorem correctDatatype_bool (b : Bool) (d : String) :
    correctDatatype (.prim (.bool b)) d = "boolean" := by
  by_cases h : d = "boolean" <;> simp [correctDatatype, h]

theorem createMetric_number_type (name : String) (q : ℚ) (ts sr : Option ℚ)
    (db : Option Deadband) (dis : Option Bool) (src qual mid dsc : Option String) :
    (createMetric name (.prim (.num q)) "number" ts sr db dis src qual mid dsc).type =
      "double" := rfl

theorem createMetric_number_value (name : String) (q : ℚ) (ts sr : Option ℚ)
    (db : Option Deadband) (dis : Option Bool) (src qual mid dsc : Option String) :
    (createMetric name (.prim (.num q)) "number" ts sr db dis src qual mid dsc).value =
      .prim (.num q) := rfl

theorem upsertVariable_datatype (src : String) (data : SingleMsg) (dt : String)
    (vars : List (String × PlcVar)) :
    ∃ v, assocGet data.variableId (upsertVariable src data dt vars) = some v ∧
      v.datatype = dt := by
  unfold upsertVariable
  cases h : assocGet data.variableId vars with
  | some ex => exact ⟨_, assocGet_set_self _ _ _, rfl⟩
  | none => exact ⟨_, assocGet_set_self _ _ _, rfl⟩

-- =============================================================================
-- Claim C6: kind self-correction takes precedence over the asserted kind
-- =============================================================================

/-- C6: an inbound event declaring kind "string" with a numeric value
resolves the effective kind to "number" (and, likewise, a boolean value
always resolves to "boolean"); when a metric of Sparkplug kind "string" was
previously registered for the id, the metric is recreated with the corrected
type "double" carrying the numeric value, the registry entry's datatype
becomes "number", and a full schema re-announcement is triggered
(`rebirthPending` set with a debounce timer armed). -/
theorem kind_self_correction (ut mu : Bool) (st : BridgeState) (now : ℚ)
    (src : String) (id : String) (q : ℚ) (db : Option Deadband)
    (dis : Option Bool) (dsc : Option String) (m : Metric)
    (h1 : assocGet id st.deviceMetrics = some m)
    (h2 : m.type = "string") :
    correctDatatype (.prim (.num q)) "string" = "number" ∧
    (∀ (b : Bool) (d : String), correctDatatype (.prim (.bool b)) d = "boolean") ∧
    (assocGet id (processSingle ut mu st now src
        ⟨id, .prim (.num q), "string", db, dis, dsc, none⟩).1.deviceMetrics).map
      (fun m2 => (m2.type, m2.value)) = some ("double", .prim (.num q)) ∧
    (assocGet id (processSingle ut mu st now src
        ⟨id, .prim (.num q), "string", db, dis, dsc, none⟩).1.vars).map
      (fun v => v.datatype) = some "number" ∧
    (processSingle ut mu st now src
        ⟨id, .prim (.num q), "string", db, dis, dsc, none⟩).1.rebirthPending = true ∧
    (processSingle ut mu st now src
        ⟨id, .prim (.num q), "string", db, dis, dsc, none⟩).1.rebirthTimer.isSome = true := by
  have hcorr : decide (m.type ≠ expectedSparkplugType "number") = true := by
    rw [h2, expectedSparkplugType_number]; decide
  refine ⟨correctDatatype_num q "string", correctDatatype_bool, ?_⟩
  simp [processSingle, processScalarPath, correctDatatype_num, h1, hcorr,
    createMetric_number_type, createMetric_number_value]
  unfold upsertVariable
  cases h : assocGet id st.vars with
  | some ex => exact ⟨_, assocGet_set_self _ _ _, rfl⟩
  | none => exact ⟨_, assocGet_set_self _ _ _, rfl⟩

/-- Witness for C6: the event `{declaredKind: "string", value: 42}` against a
state holding a previously registered String metric for id "t". -/
theorem kind_self_correction_witness :
    assocGet "t"
        (BridgeState.mk [] [] [] [("t", ⟨"t", .prim (.str "x"), "string", none, none, none, false, []⟩)]
          [] 0 none false).deviceMetrics =
      some ⟨"t", .prim (.str "x"), "string", none, none, none, false, []⟩ ∧
    (⟨"t", .prim (.str "x"), "string", none, none, none, false, []⟩ : Metric).type = "string" ∧
    (assocGet "t" (processSingle true true
        (BridgeState.mk [] [] [] [("t", ⟨"t", .prim (.str "x"), "string", none, none, none, false, []⟩)]
          [] 0 none false) 9 "plc"
        ⟨"t", .prim (.num 42), "string", none, none, none, none⟩).1.deviceMetrics).map
      (fun m2 => (m2.type, m2.value)) = some ("double", .prim (.num 42)) ∧
    (processSingle true true
        (BridgeState.mk [] [] [] [("t", ⟨"t", .prim (.str "x"), "string", none, none, none, false, []⟩)]
          [] 0 none false) 9 "plc"
        ⟨"t", .prim (.num 42), "string", none, none, none, none⟩).1.rebirthPending = true :=
  ⟨rfl, rfl,
    (kind_self_correction true true
      (BridgeState.mk [] [] [] [("t", ⟨"t", .prim (.str "x"), "string", none, none, none, false, []⟩)]
        [] 0 none false) 9 "plc" "t" 42 none none none
      ⟨"t", .prim (.str "x"), "string", none, none, none, false, []⟩ rfl rfl).2.2.1,
    (kind_self_correction true true
      (BridgeState.mk [] [] [] [("t", ⟨"t", .prim (.str "x"), "string", none, none, none, false, []⟩)]
        [] 0 none false) 9 "plc" "t" 42 none none none
      ⟨"t", .prim (.str "x"), "string", none, none, none, false, []⟩ rfl rfl).2.2.2.2.1⟩

-- =============================================================================
-- Helper lemmas about recordPublish discipline around a pending rebirth
-- =============================================================================

theorem recordPublish_overwrite (rbe : List (String × RBEState)) (now : ℚ)
    (id : String) (v : JVal) :
    assocGet id (recordPublish rbe now id v) = some ⟨v, now⟩ :=
  assocGet_set_self _ _ _

theorem processSingle_scalar_pending_silent (ut mu : Bool) (st : BridgeState)
    (now : ℚ) (src : String) (data : SingleMsg) (m : Metric)
    (h0 : data.udtTemplate = none)
    (h1 : assocGet data.variableId st.deviceMetrics = some m)
    (h2 : m.type = expectedSparkplugType (correctDatatype data.value data.datatype))
    (h3 : st.rebirthPending = true) :
    (processSingle ut mu st now src data).2 = [] ∧
    (processSingle ut mu st now src data).1.rbe = st.rbe := by
  have hn : decide
      (m.type ≠ expectedSparkplugType (correctDatatype data.value data.datatype)) =
      false := by
    rw [h2]; simp
  simp [processSingle, processScalarPath, h0, h1, hn, h3]

theorem processSingle_nested_pending_records (mu : Bool) (st : BridgeState)
    (now : ℚ) (src : String) (data : SingleMsg) (tpl : UdtTemplate)
    (f : List (String × Prim)) (m : Metric)
    (h0 : data.udtTemplate = some tpl)
    (h1 : data.datatype = "udt")
    (h2 : data.value = .recV f)
    (h3 : (assocGet tpl.name st.knownTemplates).isSome = true)
    (h4 : assocGet data.variableId st.deviceMetrics = some m)
    (h5 : st.rebirthPending = true) :
    (processSingle true mu st now src data).2 = [] ∧
    (processSingle true mu st now src data).1.rbe =
      recordPublish st.rbe now data.variableId
        (.prim (.str (jsonStringifyRecord f))) := by
  simp [processSingle, processTemplateNested, asRecord, correctDatatype,
    shouldPublish, h0, h1, h2, h3, h4, h5]

-- =============================================================================
-- Claim C5: recordPublish semantics and caller discipline
-- =============================================================================

/-- C5 counterexample: the claim says `recordPublish` is never invoked for a
value whose publish step is suppressed, including values skipped because a
rebirth is pending — but on the template-instance path the source records
before checking `rebirthPending`. In a state with a pending rebirth and an
existing template instance "v", processing a changed UDT value emits nothing
(the DDATA is skipped), yet the filter entry for "v" is overwritten with the
new stringified value at the new time. -/
theorem recordPublish_discipline_counterexample :
    (processSingle true true exPendingState 1000 "plc" exUdtMsg).2 = [] ∧
    assocGet "v" (processSingle true true exPendingState 1000 "plc" exUdtMsg).1.rbe =
      some ⟨.prim (.str (jsonStringifyRecord [("a", .num 2)])), 1000⟩ ∧
    assocGet "v" exPendingState.rbe = some ⟨.prim (.str "old"), 0⟩ := by
  obtain ⟨ha, hb⟩ := processSingle_nested_pending_records true exPendingState 1000 "plc"
    exUdtMsg ⟨"T", none, [⟨"a", .number⟩]⟩ [("a", .num 2)]
    ⟨"v", .nullV, "template", none, none, none, false, []⟩ rfl rfl rfl rfl rfl rfl
  refine ⟨ha, ?_, rfl⟩
  rw [hb]
  simp [recordPublish, exUdtMsg]

/-- C5 amended: `recordPublish(id, value)` unconditionally overwrites the
filter entry for `id` with the given value and the current time. On the
**scalar** single-value path the caller discipline holds: while a rebirth is
pending, a value for an existing correctly-typed metric is neither published
nor recorded. But on the **template-instance** path (and likewise the
flat-UDT and batch paths) a value that passes the RBE check is recorded even
when its publish step is skipped because a rebirth is pending — the claim's
"never invoked for a suppressed value" holds only for the scalar path. -/
theorem recordPublish_discipline_amended :
    (∀ (rbe : List (String × RBEState)) (now : ℚ) (id : String) (v : JVal),
      assocGet id (recordPublish rbe now id v) = some ⟨v, now⟩) ∧
    (∀ (ut mu : Bool) (st : BridgeState) (now : ℚ) (src : String)
        (data : SingleMsg) (m : Metric),
      data.udtTemplate = none →
      assocGet data.variableId st.deviceMetrics = some m →
      m.type = expectedSparkplugType (correctDatatype data.value data.datatype) →
      st.rebirthPending = true →
      (processSingle ut mu st now src data).2 = [] ∧
      (processSingle ut mu st now src data).1.rbe = st.rbe) ∧
    (∀ (mu : Bool) (st : BridgeState) (now : ℚ) (src : String) (data : SingleMsg)
        (tpl : UdtTemplate) (f : List (String × Prim)) (m : Metric),
      data.udtTemplate = some tpl →
      data.datatype = "udt" →
      data.value = .recV f →
      (assocGet tpl.name st.knownTemplates).isSome = true →
      assocGet data.variableId st.deviceMetrics = some m →
      st.rebirthPending = true →
      (processSingle true mu st now src data).2 = [] ∧
      (processSingle true mu st now src data).1.rbe =
        recordPublish st.rbe now data.variableId
          (.prim (.str (jsonStringifyRecord f)))) :=
  ⟨recordPublish_overwrite, processSingle_scalar_pending_silent,
    processSingle_nested_pending_records⟩

/-- Witness for the amended C5, at concrete inputs for each conjunct: the
overwrite, the silent scalar suppression under a pending rebirth, and the
template path recording a suppressed value. -/
theorem recordPublish_discipline_amended_witness :
    assocGet "w" (recordPublish [] 3 "w" (.prim (.num 1))) =
      some ⟨.prim (.num 1), 3⟩ ∧
    ((processSingle true true exScalarPendingState 7 "plc" exScalarMsg).2 = [] ∧
      (processSingle true true exScalarPendingState 7 "plc" exScalarMsg).1.rbe =
        exScalarPendingState.rbe) ∧
    ((processSingle true true exPendingState 1000 "plc" exUdtMsg).2 = [] ∧
      (processSingle true true exPendingState 1000 "plc" exUdtMsg).1.rbe =
        recordPublish exPendingState.rbe 1000 "v"
          (.prim (.str (jsonStringifyRecord [("a", .num 2)])))) :=
  ⟨recordPublish_discipline_amended.1 [] 3 "w" (.prim (.num 1)),
    recordPublish_discipline_amended.2.1 true true exScalarPendingState 7 "plc"
      exScalarMsg ⟨"s", .prim (.num 1), "double", none, none, none, false, []⟩
      rfl rfl rfl rfl,
    recordPublish_discipline_amended.2.2 true exPendingState 1000 "plc" exUdtMsg
      ⟨"T", none, [⟨"a", .number⟩]⟩ [("a", .num 2)]
      ⟨"v", .nullV, "template", none, none, none, false, []⟩ rfl rfl rfl rfl rfl rfl⟩

-- =============================================================================
-- Claim C10: raw ethernetip traffic is skipped entirely
-- =============================================================================

/-- C10: any inbound message whose NATS subject starts with the segment
"ethernetip" is skipped before shape detection: the bridge state (registry,
filter state, metrics, rebirth machinery) is returned unchanged and nothing
is published, for both the batch and the single-value shape. -/
theorem ethernetip_messages_skipped (ut mu : Bool) (st : BridgeState) (now : ℚ)
    (subject : String) (msg : InboundMsg)
    (h : (splitOnChar '.' subject).headD "" = "ethernetip") :
    handleMessage ut mu st now subject msg = (st, []) := by
  have h2 : (splitOnChar '.' subject).head?.getD "" = "ethernetip" := by
    simpa using h
  simp [handleMessage, h2]

/-- Witness for C10: a single-value message on subject "ethernetip.data.x"
leaves a concrete nonempty state untouched. -/
theorem ethernetip_messages_skipped_witness :
    (splitOnChar '.' "ethernetip.data.x").headD "" = "ethernetip" ∧
    handleMessage true true ⟨[], [], [], [], [], 0, none, false⟩ 5 "ethernetip.data.x"
      (.single ⟨"x", .prim (.num 1), "number", none, none, none, none⟩) =
      (⟨[], [], [], [], [], 0, none, false⟩, []) :=
  ⟨by decide,
    ethernetip_messages_skipped true true ⟨[], [], [], [], [], 0, none, false⟩ 5
      "ethernetip.data.x" (.single ⟨"x", .prim (.num 1), "number", none, none, none, none⟩)
      (by decide)⟩

-- =============================================================================
-- Claim C9: unknown-variable commands are forwarded best-effort
-- =============================================================================

/-- C9: a DCMD for an id the registry has never seen (neither as the full
metric name nor as its last path segment) with a boolean payload is never
rejected: the boolean is forwarded unchanged to the fallback "ethernetip"
command channel, the result is flagged unverified, and neither the variables
map nor the device metrics change. -/
theorem unknown_command_passthrough (vars : List (String × PlcVar))
    (dm : List (String × Metric)) (name : String) (b : Bool)
    (h1 : assocGet name vars = none)
    (h2 : assocGet (lastSegment name) vars = none) :
    handleDcmdMetric vars dm name (.prim (.bool b)) =
      ⟨[⟨"ethernetip",
          (if name.data.contains '/' then lastSegment name else name),
          .prim (.bool b)⟩],
        vars, dm, false⟩ := by
  by_cases hc : name.data.contains '/' = true <;>
    simp [handleDcmdMetric, handleDcmdScalar, h1, h2, hc]

/-- Witness for C9: command for the never-seen id "pump" with payload true
against an empty registry. -/
theorem unknown_command_passthrough_witness :
    assocGet "pump" ([] : List (String × PlcVar)) = none ∧
    assocGet (lastSegment "pump") ([] : List (String × PlcVar)) = none ∧
    handleDcmdMetric [] [] "pump" (.prim (.bool true)) =
      ⟨[⟨"ethernetip",
          (if "pump".data.contains '/' then lastSegment "pump" else "pump"),
          .prim (.bool true)⟩],
        [], [], false⟩ :=
  ⟨rfl, rfl, unknown_command_passthrough [] [] "pump" true rfl rfl⟩

-- =============================================================================
-- Claim C8: command fallback by stripping one path segment
-- =============================================================================

/-- C8: a DCMD for metric name "folder/temp" when only "temp" is registered
resolves to "temp" by stripping the path segment, forwards the value
converted to temp's declared datatype to the command channel of temp's
owning module, and counts as verified. -/
theorem command_segment_fallback (vars : List (String × PlcVar))
    (dm : List (String × Metric)) (v : PlcVar) (raw : JVal)
    (h1 : assocGet "folder/temp" vars = none)
    (h2 : assocGet "temp" vars = some v) :
    (∀ (name2 : String) (v2 : PlcVar) (p : Prim),
      assocGet name2 vars = some v2 →
      (handleDcmdMetric vars dm name2 (.prim p)).commands =
        [⟨v2.moduleId, name2, sparkplugToPLCValue (.prim p) v2.datatype⟩]) ∧
    (handleDcmdMetric vars dm "folder/temp" raw).commands =
      [⟨v.moduleId, "temp", sparkplugToPLCValue raw v.datatype⟩] ∧
    (handleDcmdMetric vars dm "folder/temp" raw).verified = true := by
  have hseg : lastSegment "folder/temp" = "temp" := by decide
  have hcon : "folder/temp".data.contains '/' = true := by decide
  refine ⟨?_, ?_⟩
  · intro name2 v2 p hfound
    simp [handleDcmdMetric, handleDcmdScalar, hfound]
  · cases raw <;>
      simp [handleDcmdMetric, handleDcmdScalar, h1, h2, hseg, hcon]

/-- Witness for C8: registry containing only "temp" (a number owned by
module "plcmod"), command value 5. -/
theorem command_segment_fallback_witness :
    assocGet "folder/temp"
        [("temp", (⟨"temp", "d", "number", .prim (.num 0), none, none, "plcmod", none⟩ : PlcVar))] =
      none ∧
    assocGet "temp"
        [("temp", (⟨"temp", "d", "number", .prim (.num 0), none, none, "plcmod", none⟩ : PlcVar))] =
      some ⟨"temp", "d", "number", .prim (.num 0), none, none, "plcmod", none⟩ ∧
    (handleDcmdMetric
        [("temp", ⟨"temp", "d", "number", .prim (.num 0), none, none, "plcmod", none⟩)]
        [] "temp" (.prim (.num 9))).commands =
      [⟨"plcmod", "temp", sparkplugToPLCValue (.prim (.num 9)) "number"⟩] ∧
    (handleDcmdMetric
        [("temp", ⟨"temp", "d", "number", .prim (.num 0), none, none, "plcmod", none⟩)]
        [] "folder/temp" (.prim (.num 5))).commands =
      [⟨"plcmod", "temp",
        sparkplugToPLCValue (.prim (.num 5)) "number"⟩] ∧
    (handleDcmdMetric
        [("temp", ⟨"temp", "d", "number", .prim (.num 0), none, none, "plcmod", none⟩)]
        [] "folder/temp" (.prim (.num 5))).verified = true :=
  ⟨rfl, rfl,
    (command_segment_fallback
      [("temp", ⟨"temp", "d", "number", .prim (.num 0), none, none, "plcmod", none⟩)]
      [] ⟨"temp", "d", "number", .prim (.num 0), none, none, "plcmod", none⟩
      (.prim (.num 5)) rfl rfl).1 "temp"
      ⟨"temp", "d", "number", .prim (.num 0), none, none, "plcmod", none⟩ (.num 9) rfl,
    (command_segment_fallback
      [("temp", ⟨"temp", "d", "number", .prim (.num 0), none, none, "plcmod", none⟩)]
      [] ⟨"temp", "d", "number", .prim (.num 0), none, none, "plcmod", none⟩
      (.prim (.num 5)) rfl rfl).2.1,
    (command_segment_fallback
      [("temp", ⟨"temp", "d", "number", .prim (.num 0), none, none, "plcmod", none⟩)]
      [] ⟨"temp", "d", "number", .prim (.num 0), none, none, "plcmod", none⟩
      (.prim (.num 5)) rfl rfl).2.2⟩

end TentacleMqtt
